import Mathlib

/-!
Verification of the ProphAI backend (src/app.py): a FastAPI relay with two
routes, POST /analyze and POST /chat.  The Python code is shallowly embedded:
JSON values are an inductive type, Python dicts are ordered association
lists, the external completion service (google-genai generate_content) is an
oracle function from the prompt string to an outcome, and each route handler
is a pure Lean function from (credential, oracle, request field) to the
returned value plus the list of server-side print diagnostics.
-/

namespace ProphAI

/-- Values produced by json.loads.  JSON numbers are modelled as integers,
which covers every number appearing in the schema and in the claims. -/
inductive Json where
  | null
  | bool (b : Bool)
  | int (n : Int)
  | str (s : String)
  | arr (elems : List Json)
  | obj (fields : List (String × Json))
deriving Repr

/-- Python dict lookup d.get(key): first binding wins (json.loads keeps the
last duplicate key, so its dicts have unique keys and first = only). -/
def getKey : List (String × Json) → String → Option Json
  | [], _ => none
  | (k, v) :: rest, key => if k = key then some v else getKey rest key

/-- Python dict assignment d[key] = v: replaces the binding in place,
appending at the end when the key is absent (insertion order semantics). -/
def setKey : List (String × Json) → String → Json → List (String × Json)
  | [], key, v => [(key, v)]
  | (k, w) :: rest, key, v =>
      if k = key then (key, v) :: rest else (k, w) :: setKey rest key v

/-- Python exception classes that can arise in the two handlers.
jsonDecodeError is json.JSONDecodeError (a subclass of ValueError) and
validationError is pydantic ValidationError (also a subclass of ValueError,
per the pydantic v2 documentation). -/
inductive PyError where
  | apiError (msg : String)
  | jsonDecodeError (msg : String)
  | validationError (msg : String)
  | valueError (msg : String)
  | typeError (msg : String)
  | attributeError (msg : String)
  | otherError (msg : String)
deriving Repr, DecidableEq

/-- Python str(e) content of the exception, as far as the model tracks it. -/
def pyErrorMsg : PyError → String
  | .apiError m => m
  | .jsonDecodeError m => m
  | .validationError m => m
  | .valueError m => m
  | .typeError m => m
  | .attributeError m => m
  | .otherError m => m

/-- The first except clause of /analyze catches
(APIError, json.JSONDecodeError, ValueError); JSONDecodeError and pydantic
ValidationError are ValueError subclasses, so all four match. -/
def caughtByAnalyzeExcept : PyError → Bool
  | .apiError _ => true
  | .jsonDecodeError _ => true
  | .validationError _ => true
  | .valueError _ => true
  | .typeError _ => false
  | .attributeError _ => false
  | .otherError _ => false

/-- One print(...) diagnostic emitted by a handler, tagged by which format
string produced it; the payload is the exception interpolated into it. -/
inductive LogEvent where
  | analysisError (e : PyError)
  | internalServerError (e : PyError)
  | chatError (e : PyError)
deriving Repr, DecidableEq

/-- Text of the diagnostic as printed (the f-string renders str(e)). -/
def logLine : LogEvent → String
  | .analysisError e => "Analysis Error (API/JSON/Validation): " ++ pyErrorMsg e
  | .internalServerError e => "Internal Server Error: " ++ pyErrorMsg e
  | .chatError e => "Chat Error: " ++ pyErrorMsg e

/-- Pydantic model TechStackDetail from src/app.py. -/
structure TechStackDetail where
  component : String
  technology : String
  justification : String
deriving Repr, DecidableEq

/-- Pydantic model CompetitorDetail from src/app.py. -/
structure CompetitorDetail where
  competitor : String
  similarFeatures : String
  differentiation : String
deriving Repr, DecidableEq

/-- Pydantic model AnalysisResult from src/app.py, the strict response
schema of /analyze (the EvaluationResult of the specification).
projectPhases is list[dict]: any-shape string-keyed records. -/
structure AnalysisResult where
  noveltyScore : Int
  trendsScore : Int
  viralityPotential : Int
  netWorthEstimate : String
  uniquenessSummary : String
  longTermViability : String
  ecosystemRisks : String
  adoptionDrivers : String
  actionableNextSteps : List String
  keywords : List String
  techAppeal : String
  techStack : List TechStackDetail
  projectPhases : List (List (String × Json))
  competitiveLandscape : List CompetitorDetail
deriving Repr

/-- Pydantic model ChatResponse from src/app.py. -/
structure ChatResponse where
  reply : String
deriving Repr, DecidableEq

/-- Pydantic v2 validation of a str field in default (lax) mode: only an
actual string is accepted (ints, bools, null, containers are rejected). -/
def validateStr : Json → Option String
  | .str s => some s
  | _ => none

/-- Digit-sequence value of a character list: none when a non-digit
appears (the empty list yields the accumulator, callers require a
nonempty digit sequence). -/
def digitsToNatAux : List Char → Nat → Option Nat
  | [], acc => some acc
  | c :: rest, acc =>
      if c.isDigit then digitsToNatAux rest (acc * 10 + (c.toNat - 48)) else none

/-- Plain signed-decimal parse, the _parse_str stage of pydantic-core's
str_as_int: an optional + or - sign followed by a nonempty run of decimal
digits, nothing else. -/
def parseSignedDigits : List Char → Option Int
  | [] => none
  | '-' :: rest =>
      if rest.isEmpty then none
      else (digitsToNatAux rest 0).map (fun n => -(n : Int))
  | '+' :: rest =>
      if rest.isEmpty then none
      else (digitsToNatAux rest 0).map (fun n => (n : Int))
  | cs => (digitsToNatAux cs 0).map (fun n => (n : Int))

/-- Whitespace characters trimmed from both ends by str_as_int. -/
def isSpaceChar (c : Char) : Bool :=
  c = ' ' || c = '\t' || c = '\n' || c = '\r' || c.toNat = 11 || c.toNat = 12

/-- Leading-whitespace removal. -/
def dropLeadingWs : List Char → List Char
  | [] => []
  | c :: rest => if isSpaceChar c then dropLeadingWs rest else c :: rest

/-- Both-ends whitespace trim. -/
def trimWs (cs : List Char) : List Char :=
  dropLeadingWs (dropLeadingWs cs.reverse).reverse

/-- The strip_decimal_zeros stage of pydantic-core's str_as_int: when the
characters hold a dot whose entire suffix is zeros, the part before the
first dot; otherwise none (so "60.0" and "60." reduce to "60", while
"60.5" and "6.0.0" do not reduce). -/
def stripDecimalZeros : List Char → Option (List Char)
  | [] => none
  | '.' :: rest => if rest.all (fun c => c = '0') then some [] else none
  | c :: rest => (stripDecimalZeros rest).map (fun t => c :: t)

/-- Integer value of a string under the pydantic v2 default (lax)
str-to-int conversion, following pydantic-core's str_as_int: trim
whitespace from both ends, refuse oversized inputs (the 4300-character
interchange cap), then try a plain signed-decimal parse, then the same
parse after stripping a zero-valued decimal fraction ("60.0"), then after
removing underscores ("6_0"). -/
def pyIntOfString (s : String) : Option Int :=
  let t := trimWs s.data
  if 4300 < t.length then none
  else
    match parseSignedDigits t with
    | some n => some n
    | none =>
        match stripDecimalZeros t with
        | some t2 => parseSignedDigits t2
        | none =>
            if t.contains '_' then parseSignedDigits (t.filter (fun c => !(c = '_')))
            else none

/-- Pydantic v2 validation of an int field in default (lax) mode: an int is
accepted, and a string is coerced when it parses as an integer (the
documented lax str-to-int conversion); everything else is rejected
(bool is explicitly not valid for int fields in pydantic v2). -/
def validateInt : Json → Option Int
  | .int n => some n
  | .str s => pyIntOfString s
  | _ => none

/-- Pydantic validation of list[str] elements: every element must be a
string. -/
def allStrings : List Json → Option (List String)
  | [] => some []
  | j :: rest =>
      match validateStr j, allStrings rest with
      | some s, some ss => some (s :: ss)
      | _, _ => none

/-- Pydantic validation of a nested TechStackDetail model from a JSON
object: the three fields must be present as strings; extra keys are
ignored (the default model config). -/
def validateTechStackDetail : Json → Option TechStackDetail
  | .obj kvs =>
      match (getKey kvs "component").bind validateStr,
            (getKey kvs "technology").bind validateStr,
            (getKey kvs "justification").bind validateStr with
      | some c, some t, some j => some ⟨c, t, j⟩
      | _, _, _ => none
  | _ => none

/-- Pydantic validation of a nested CompetitorDetail model. -/
def validateCompetitorDetail : Json → Option CompetitorDetail
  | .obj kvs =>
      match (getKey kvs "competitor").bind validateStr,
            (getKey kvs "similarFeatures").bind validateStr,
            (getKey kvs "differentiation").bind validateStr with
      | some c, some s, some d => some ⟨c, s, d⟩
      | _, _, _ => none
  | _ => none

/-- Pydantic validation of list[TechStackDetail] elements. -/
def allTechStackDetails : List Json → Option (List TechStackDetail)
  | [] => some []
  | j :: rest =>
      match validateTechStackDetail j, allTechStackDetails rest with
      | some t, some ts => some (t :: ts)
      | _, _ => none

/-- Pydantic validation of list[CompetitorDetail] elements. -/
def allCompetitorDetails : List Json → Option (List CompetitorDetail)
  | [] => some []
  | j :: rest =>
      match validateCompetitorDetail j, allCompetitorDetails rest with
      | some c, some cs => some (c :: cs)
      | _, _ => none

/-- Pydantic validation of a dict element of list[dict]: any JSON object is
accepted, nothing else. -/
def validateDict : Json → Option (List (String × Json))
  | .obj kvs => some kvs
  | _ => none

/-- Pydantic validation of list[dict] elements. -/
def allDicts : List Json → Option (List (List (String × Json)))
  | [] => some []
  | j :: rest =>
      match validateDict j, allDicts rest with
      | some d, some ds => some (d :: ds)
      | _, _ => none

/-- Pydantic validation of a list[str] field. -/
def validateStrList : Json → Option (List String)
  | .arr xs => allStrings xs
  | _ => none

/-- AnalysisResult(**analysis_data): all fourteen fields must be present
with valid types, otherwise pydantic raises ValidationError (all or
nothing, no partial construction); extra keys are ignored. -/
def AnalysisResult.validate (kvs : List (String × Json)) : Option AnalysisResult :=
  match (getKey kvs "noveltyScore").bind validateInt with
  | none => none
  | some noveltyScore =>
  match (getKey kvs "trendsScore").bind validateInt with
  | none => none
  | some trendsScore =>
  match (getKey kvs "viralityPotential").bind validateInt with
  | none => none
  | some viralityPotential =>
  match (getKey kvs "netWorthEstimate").bind validateStr with
  | none => none
  | some netWorthEstimate =>
  match (getKey kvs "uniquenessSummary").bind validateStr with
  | none => none
  | some uniquenessSummary =>
  match (getKey kvs "longTermViability").bind validateStr with
  | none => none
  | some longTermViability =>
  match (getKey kvs "ecosystemRisks").bind validateStr with
  | none => none
  | some ecosystemRisks =>
  match (getKey kvs "adoptionDrivers").bind validateStr with
  | none => none
  | some adoptionDrivers =>
  match (getKey kvs "actionableNextSteps").bind validateStrList with
  | none => none
  | some actionableNextSteps =>
  match (getKey kvs "keywords").bind validateStrList with
  | none => none
  | some keywords =>
  match (getKey kvs "techAppeal").bind validateStr with
  | none => none
  | some techAppeal =>
  match (getKey kvs "techStack").bind (fun j =>
      match j with
      | .arr xs => allTechStackDetails xs
      | _ => none) with
  | none => none
  | some techStack =>
  match (getKey kvs "projectPhases").bind (fun j =>
      match j with
      | .arr xs => allDicts xs
      | _ => none) with
  | none => none
  | some projectPhases =>
  match (getKey kvs "competitiveLandscape").bind (fun j =>
      match j with
      | .arr xs => allCompetitorDetails xs
      | _ => none) with
  | none => none
  | some competitiveLandscape =>
  some { noveltyScore, trendsScore, viralityPotential, netWorthEstimate,
         uniquenessSummary, longTermViability, ecosystemRisks,
         adoptionDrivers, actionableNextSteps, keywords, techAppeal,
         techStack, projectPhases, competitiveLandscape }

/-- Python truthiness test used by the handlers: API_KEY is falsy when the
environment variable is unset (None) or the empty string. -/
def keyPresent : Option String → Bool
  | none => false
  | some s => !(s == "")

/-- The prompt built by create_analysis_prompt in src/app.py: the f-string
with the idea spliced in verbatim (doubled braces of the template render as
single braces in the value). -/
def create_analysis_prompt (idea : String) : String :=
  "
    You are ProphAI, the Strategic Innovation Core. Your primary task is to **first validate** whether the following input describes a software project, product, or clear technological innovation.
    Input Idea: \"" ++ idea ++ "\"
    **--- CRITICAL INSTRUCTION ---**
    **CONDITION A (Invalid/Non-Project):** If the input is a general question (e.g., \"What is AI?\"), a single irrelevant word, or does NOT describe a product/innovation, you MUST return a strict JSON response where **noveltyScore is 0** and ALL scores (trendsScore, viralityPotential) are **0** (zero).
    * Use this specific error summary for general questions/irrelevant input: **\"Please input a valid project or innovation in proper manner.\"**
    * Use this specific error summary if the input is vague but might pass the length check: **\"No project described below.\"**
    * For Condition A, fill all descriptive fields (e.g., netWorthEstimate, viability) with **\"N/A: Input Validation Failed\"** and use placeholder lists with error messages.
    **CONDITION B (Valid Project):** If the input clearly describes a software project or innovation, proceed with the full professional analysis and provide realistic scores (0-100) and detailed descriptions.
    **REQUIRED JSON STRUCTURE (Strictly adhere to this format for both CONDITIONS A and B):**

    \x7b
        \"noveltyScore\": [Integer 0-100],
        \"trendsScore\": [Integer 0-100],
        \"viralityPotential\": [Integer 0-100],
        \"netWorthEstimate\": \"String describing the 3-year valuation range (e.g., '₹5 Crore - ₹10 Crore (High Tech Value)' OR 'ZERO - Input Not Validated')\",
        \"uniquenessSummary\": \"A concise summary of the core product's USP, OR the specific error message from Condition A.\",
        \"longTermViability\": \"A concise assessment of the idea's resilience, OR 'N/A: Invalid Input'.\",
        \"ecosystemRisks\": \"Concise summary of 2-3 risks, OR 'N/A: Invalid Input'.\",
        \"adoptionDrivers\": \"Concise summary of 2-3 drivers, OR 'N/A: Invalid Input'.\",
        \"actionableNextSteps\": [
            \"1. (Practical Step or Error Message from Condition A)\",
            \"2. (Practical Step or Error Message from Condition A)\",
            \"3. (Practical Step or Error Message from Condition A)\"
        ],
        \"keywords\": [
            \"Validation_Error\",
            \"Invalid_Input\"
        ],
        \"techAppeal\": \"A concise summary of the project's appeal, OR 'N/A: Invalid Input'.\",
        \"techStack\": [
            \x7b\"component\": \"Frontend/UI\", \"technology\": \"React/Next.js\", \"justification\": \"Modern, scalable component-based architecture.\"\x7d,
            \x7b\"component\": \"Backend/API\", \"technology\": \"FastAPI/GoLang\", \"justification\": \"High performance and asynchronous handling for real-time data.\"\x7d,
            \x7b\"component\": \"Database/Data Layer\", \"technology\": \"PostgreSQL/VectorDB\", \"justification\": \"Structured data and efficient vector search for AI embeddings.\"\x7d
        ],
        \"projectPhases\": [
            \x7b\"phase\": \"Phase 1: Proof of Concept\", \"duration\": \"4 Weeks\", \"focus\": \"Core Logic & Data Integrity, Minimal UI.\"\x7d,
            \x7b\"phase\": \"Phase 2: Alpha Launch\", \"duration\": \"8 Weeks\", \"focus\": \"Complete MVP, Security Audit, Internal Testing.\"\x7d
        ],
        \"competitiveLandscape\": [
            \x7b\"competitor\": \"Major Competitor A\", \"similarFeatures\": \"AI-driven content generation.\", \"differentiation\": \"Your niche focus.\"\x7d,
            \x7b\"competitor\": \"Niche Startup B\", \"similarFeatures\": \"Simple UI.\", \"differentiation\": \"Superior security.\"\x7d
        ]
    \x7d
    "

/-- The prompt built inline by chat_endpoint in src/app.py. -/
def create_chat_prompt (message : String) : String :=
  "
    You are a friendly and knowledgeable technical assistant. Answer the user's question concisely.
    If the question is about a project or innovation analysis, gently redirect them to use the main ProphAI form.
    User Question: " ++ message ++ "
    "

/-- The default_data dict defined at the top of analyze_project in
src/app.py, transliterated entry for entry. -/
def default_data : List (String × Json) :=
  [("noveltyScore", .int 60), ("trendsScore", .int 65), ("viralityPotential", .int 45),
   ("netWorthEstimate", .str "₹1 Crore - ₹2 Crore (System Fallback)"),
   ("uniquenessSummary", .str "Could not connect to Analysis Core. Returning low-confidence base analysis. Check API Key."),
   ("longTermViability", .str "Uncertain (Core failure prevented deep analysis)."),
   ("ecosystemRisks", .str "Check your API key and network connection."),
   ("adoptionDrivers", .str "Try running the server again with correct key."),
   ("actionableNextSteps", .arr
     [.str "1. Verify the 'API_KEY' is set correctly in environment.",
      .str "2. Check FastAPI logs for detailed error trace and JSON format errors.",
      .str "3. Re-run 'uvicorn app:app --reload'."]),
   ("keywords", .arr [.str "Fallback", .str "System Error", .str "Check Key"]),
   ("techAppeal", .str "Fallback analysis: Cannot determine true technical appeal."),
   ("techStack", .arr
     [.obj [("component", .str "System"), ("technology", .str "N/A"),
            ("justification", .str "Failure to connect to core AI.")]]),
   ("projectPhases", .arr
     [.obj [("phase", .str "Error Phase"), ("duration", .str "N/A"),
            ("focus", .str "Troubleshoot Server Connection.")]]),
   ("competitiveLandscape", .arr
     [.obj [("competitor", .str "System Fallback"), ("similarFeatures", .str "N/A"),
            ("differentiation", .str "Connection Error")]])]

/-- The AnalysisResult value that FastAPI response-model validation produces
from default_data; this is the fallback payload as the caller receives it. -/
def defaultAnalysisResult : AnalysisResult where
  noveltyScore := 60
  trendsScore := 65
  viralityPotential := 45
  netWorthEstimate := "₹1 Crore - ₹2 Crore (System Fallback)"
  uniquenessSummary := "Could not connect to Analysis Core. Returning low-confidence base analysis. Check API Key."
  longTermViability := "Uncertain (Core failure prevented deep analysis)."
  ecosystemRisks := "Check your API key and network connection."
  adoptionDrivers := "Try running the server again with correct key."
  actionableNextSteps :=
    ["1. Verify the 'API_KEY' is set correctly in environment.",
     "2. Check FastAPI logs for detailed error trace and JSON format errors.",
     "3. Re-run 'uvicorn app:app --reload'."]
  keywords := ["Fallback", "System Error", "Check Key"]
  techAppeal := "Fallback analysis: Cannot determine true technical appeal."
  techStack := [⟨"System", "N/A", "Failure to connect to core AI."⟩]
  projectPhases :=
    [[("phase", .str "Error Phase"), ("duration", .str "N/A"),
      ("focus", .str "Troubleshoot Server Connection.")]]
  competitiveLandscape := [⟨"System Fallback", "N/A", "Connection Error"⟩]

/-- Text returned by the completion service in structured mode, as far as
json.loads can see it: either a string on which json.loads raises
JSONDecodeError with the given message, or a string that parses to the
given JSON value.  Nothing in analyze_project reads response.text except
json.loads, so this is a faithful view. -/
inductive ModelText where
  | invalidJson (msg : String)
  | jsonText (v : Json)

/-- The json.loads call. -/
def json_loads : ModelText → Except String Json
  | .invalidJson m => .error m
  | .jsonText v => .ok v

/-- Outcome of client.models.generate_content on the /analyze path: the call
raises some exception, or returns a response whose .text attribute is None
or a string. -/
inductive AnalyzeCall where
  | raised (e : PyError)
  | returned (text : Option ModelText)

/-- Outcome of client.models.generate_content on the /chat path (freeform
mode, the raw text is all that matters). -/
inductive ChatCall where
  | raised (e : PyError)
  | returned (text : Option String)

/-- Exception actually raised by the line
raise APIError("Gemini API Key is not set in environment variables."):
google-genai declares APIError.__init__(self, code, response_json,
response=None) with two required positional arguments in every released
version of the SDK, so constructing it with a single message string raises
TypeError before anything is raised as APIError.  TypeError is not caught
by the first except clause of analyze_project. -/
def apiKeyRaiseOutcome : PyError :=
  .typeError "APIError.__init__ missing 1 required positional argument: response_json"

/-- Exception raised by json.loads(None) when response.text is None. -/
def jsonLoadsNoneOutcome : PyError :=
  .typeError "the JSON object must be str, bytes or bytearray, not NoneType"

/-- Exception raised by analysis_data.get(...) when json.loads produced a
non-dict value (lists, strings, numbers and None have no get attribute). -/
def getAttrOutcome : PyError :=
  .attributeError "object has no attribute get"

/-- Exception raised by the space-join when a list element is not a str. -/
def joinTypeOutcome : PyError :=
  .typeError "sequence item: expected str instance"

/-- Message of the pydantic ValidationError raised by
AnalysisResult(**analysis_data), as the model tracks it. -/
def validationFailureMsg : String := "validation error for AnalysisResult"

/-- Message of the pydantic ValidationError raised by
ChatResponse(reply=None). -/
def chatValidationFailureMsg : String := "validation error for ChatResponse"

/-- Detail string of the HTTPException raised by the generic except clause. -/
def unexpectedDetail (e : PyError) : String :=
  "An unexpected server error occurred: " ++ pyErrorMsg e

/-- Python str.join with separator a single space, applied to the elements
of a JSON array: raises TypeError (modelled as none) when any element is
not a string. -/
def joinWithSpace (xs : List Json) : Option String :=
  (allStrings xs).map (String.intercalate " ")

/-- One coercion step of the response normalizer: if the field holds a
list, replace it by the space-join of its elements (raising TypeError when
an element is not a string); any non-list value is left untouched. -/
def coerceListField (key : String) (kvs : List (String × Json)) :
    Except PyError (List (String × Json)) :=
  match getKey kvs key with
  | some (.arr xs) =>
      match joinWithSpace xs with
      | some s => .ok (setKey kvs key (.str s))
      | none => .error joinTypeOutcome
  | _ => .ok kvs

/-- The two isinstance/join repairs of analyze_project, in source order:
ecosystemRisks first, then adoptionDrivers. -/
def normalizeResponse (kvs : List (String × Json)) :
    Except PyError (List (String × Json)) :=
  match coerceListField "ecosystemRisks" kvs with
  | .error e => .error e
  | .ok kvs1 => coerceListField "adoptionDrivers" kvs1

/-- Value returned (or exception escaping) from the body of the
analyze_project route function, before FastAPI response processing. -/
inductive RawReturn where
  | model (r : AnalysisResult)
  | dict (d : List (String × Json))
  | httpError (status : Nat) (detail : String)
deriving Repr

/-- The analyze_project route function of src/app.py: credential check,
external call, json.loads, the two list coercions, pydantic construction,
with the two except clauses.  Returns the raw return value and the print
diagnostics emitted. -/
def analyze_project (apiKey : Option String) (genai : String → AnalyzeCall)
    (idea : String) : RawReturn × List LogEvent :=
  if keyPresent apiKey = false then
    (.httpError 500 (unexpectedDetail apiKeyRaiseOutcome),
     [.internalServerError apiKeyRaiseOutcome])
  else
    match genai (create_analysis_prompt idea) with
    | .raised e =>
        if caughtByAnalyzeExcept e then
          (.dict default_data, [.analysisError e])
        else
          (.httpError 500 (unexpectedDetail e), [.internalServerError e])
    | .returned none =>
        (.httpError 500 (unexpectedDetail jsonLoadsNoneOutcome),
         [.internalServerError jsonLoadsNoneOutcome])
    | .returned (some t) =>
        match json_loads t with
        | .error m => (.dict default_data, [.analysisError (.jsonDecodeError m)])
        | .ok (.obj kvs) =>
            match normalizeResponse kvs with
            | .error e =>
                (.httpError 500 (unexpectedDetail e), [.internalServerError e])
            | .ok kvs1 =>
                match AnalysisResult.validate kvs1 with
                | some r => (.model r, [])
                | none =>
                    (.dict default_data,
                     [.analysisError (.validationError validationFailureMsg)])
        | .ok _ =>
            (.httpError 500 (unexpectedDetail getAttrOutcome),
             [.internalServerError getAttrOutcome])

/-- Response of POST /analyze as the HTTP caller sees it after FastAPI
applies response_model=AnalysisResult: a full body, an explicit
HTTPException, or a response-validation failure (which would mean a partial
object crossed the boundary). -/
inductive AnalyzeResult where
  | body (r : AnalysisResult)
  | httpError (status : Nat) (detail : String)
  | responseInvalid
deriving Repr

/-- FastAPI response processing for response_model=AnalysisResult: a dict
return value is validated against the model; failure is a server-side
response-validation error. -/
def fastapiRespond : RawReturn → AnalyzeResult
  | .model r => .body r
  | .dict d =>
      match AnalysisResult.validate d with
      | some r => .body r
      | none => .responseInvalid
  | .httpError c s => .httpError c s

/-- End-to-end POST /analyze: route function plus response processing. -/
def analyze_response (apiKey : Option String) (genai : String → AnalyzeCall)
    (idea : String) : AnalyzeResult × List LogEvent :=
  (fastapiRespond (analyze_project apiKey genai idea).1,
   (analyze_project apiKey genai idea).2)

/-- Response of POST /chat as the HTTP caller sees it. -/
inductive ChatResult where
  | reply (r : ChatResponse)
  | httpError (status : Nat) (detail : String)
deriving Repr

/-- The fixed apology string of chat_endpoint. -/
def chatFallbackReply : String :=
  "Sorry, I can't connect to the chat service right now."

/-- The chat_endpoint route function of src/app.py: the same credential
check (with the same APIError constructor slip, here swallowed by the
blanket except), the external call, and ChatResponse construction; every
exception of any kind is converted to the fixed apology reply. -/
def chat_endpoint (apiKey : Option String) (genai : String → ChatCall)
    (message : String) : ChatResult × List LogEvent :=
  if keyPresent apiKey = false then
    (.reply ⟨chatFallbackReply⟩, [.chatError apiKeyRaiseOutcome])
  else
    match genai (create_chat_prompt message) with
    | .raised e => (.reply ⟨chatFallbackReply⟩, [.chatError e])
    | .returned none =>
        (.reply ⟨chatFallbackReply⟩,
         [.chatError (.validationError chatValidationFailureMsg)])
    | .returned (some t) => (.reply ⟨t⟩, [])

/-- JSON encoding of a TechStackDetail, used to state what a fully
schema-conformant service response looks like. -/
def encodeTechStackDetail (t : TechStackDetail) : Json :=
  .obj [("component", .str t.component), ("technology", .str t.technology),
        ("justification", .str t.justification)]

/-- JSON encoding of a CompetitorDetail. -/
def encodeCompetitorDetail (c : CompetitorDetail) : Json :=
  .obj [("competitor", .str c.competitor), ("similarFeatures", .str c.similarFeatures),
        ("differentiation", .str c.differentiation)]

/-- Modelled from the wording of the specification round-trip property: the
parsed JSON object kvs is syntactically valid and fully schema-conformant,
and r is its field-for-field deserialization (the two coercion fields
arriving as scalar strings, every field present with exactly the schema
type). -/
def ConformantResponse (kvs : List (String × Json)) (r : AnalysisResult) : Prop :=
  getKey kvs "noveltyScore" = some (.int r.noveltyScore) ∧
  getKey kvs "trendsScore" = some (.int r.trendsScore) ∧
  getKey kvs "viralityPotential" = some (.int r.viralityPotential) ∧
  getKey kvs "netWorthEstimate" = some (.str r.netWorthEstimate) ∧
  getKey kvs "uniquenessSummary" = some (.str r.uniquenessSummary) ∧
  getKey kvs "longTermViability" = some (.str r.longTermViability) ∧
  getKey kvs "ecosystemRisks" = some (.str r.ecosystemRisks) ∧
  getKey kvs "adoptionDrivers" = some (.str r.adoptionDrivers) ∧
  getKey kvs "actionableNextSteps" = some (.arr (r.actionableNextSteps.map Json.str)) ∧
  getKey kvs "keywords" = some (.arr (r.keywords.map Json.str)) ∧
  getKey kvs "techAppeal" = some (.str r.techAppeal) ∧
  getKey kvs "techStack" = some (.arr (r.techStack.map encodeTechStackDetail)) ∧
  getKey kvs "projectPhases" = some (.arr (r.projectPhases.map Json.obj)) ∧
  getKey kvs "competitiveLandscape" = some (.arr (r.competitiveLandscape.map encodeCompetitorDetail))

/-- Sample evaluation result used to instantiate the happy-path theorems on
a concrete input. -/
def sampleResult : AnalysisResult where
  noveltyScore := 82
  trendsScore := 74
  viralityPotential := 66
  netWorthEstimate := "5 Crore"
  uniquenessSummary := "A planner."
  longTermViability := "Good."
  ecosystemRisks := "Few."
  adoptionDrivers := "Many."
  actionableNextSteps := ["1. Build"]
  keywords := ["ai"]
  techAppeal := "High."
  techStack := [⟨"Backend", "FastAPI", "Speed"⟩]
  projectPhases := [[("phase", .str "P1")]]
  competitiveLandscape := [⟨"A", "B", "C"⟩]

/-- JSON object encoding sampleResult, a fully conformant service reply. -/
def sampleKvs : List (String × Json) :=
  [("noveltyScore", .int 82), ("trendsScore", .int 74), ("viralityPotential", .int 66),
   ("netWorthEstimate", .str "5 Crore"), ("uniquenessSummary", .str "A planner."),
   ("longTermViability", .str "Good."), ("ecosystemRisks", .str "Few."),
   ("adoptionDrivers", .str "Many."),
   ("actionableNextSteps", .arr [.str "1. Build"]),
   ("keywords", .arr [.str "ai"]), ("techAppeal", .str "High."),
   ("techStack", .arr [.obj [("component", .str "Backend"), ("technology", .str "FastAPI"),
                             ("justification", .str "Speed")]]),
   ("projectPhases", .arr [.obj [("phase", .str "P1")]]),
   ("competitiveLandscape", .arr [.obj [("competitor", .str "A"),
                                        ("similarFeatures", .str "B"),
                                        ("differentiation", .str "C")]])]

/-- Service reply equal to sampleKvs except that noveltyScore arrives as
the JSON string "60" rather than an integer. -/
def stringScoreKvs : List (String × Json) :=
  [("noveltyScore", .str "60"), ("trendsScore", .int 74), ("viralityPotential", .int 66),
   ("netWorthEstimate", .str "5 Crore"), ("uniquenessSummary", .str "A planner."),
   ("longTermViability", .str "Good."), ("ecosystemRisks", .str "Few."),
   ("adoptionDrivers", .str "Many."),
   ("actionableNextSteps", .arr [.str "1. Build"]),
   ("keywords", .arr [.str "ai"]), ("techAppeal", .str "High."),
   ("techStack", .arr [.obj [("component", .str "Backend"), ("technology", .str "FastAPI"),
                             ("justification", .str "Speed")]]),
   ("projectPhases", .arr [.obj [("phase", .str "P1")]]),
   ("competitiveLandscape", .arr [.obj [("competitor", .str "A"),
                                        ("similarFeatures", .str "B"),
                                        ("differentiation", .str "C")]])]

/-- What pydantic actually constructs from stringScoreKvs: the lax str-to-int
conversion turns the string "60" into the integer 60. -/
def stringScoreResult : AnalysisResult :=
  { sampleResult with noveltyScore := 60 }

/-! Helper lemmas shared by the claim theorems. -/

theorem default_data_validates :
    AnalysisResult.validate default_data = some defaultAnalysisResult := rfl

theorem getKey_setKey_self (kvs : List (String × Json)) (key : String) (v : Json) :
    getKey (setKey kvs key v) key = some v := by
  induction kvs with
  | nil => simp [setKey, getKey]
  | cons p rest ih =>
      obtain ⟨k, w⟩ := p
      by_cases h : k = key
      · simp [setKey, h, getKey]
      · simp [setKey, h, getKey, ih]

theorem getKey_setKey_ne (kvs : List (String × Json)) (key k : String) (v : Json)
    (h : k ≠ key) : getKey (setKey kvs key v) k = getKey kvs k := by
  have h2 : ¬key = k := fun hh => h hh.symm
  induction kvs with
  | nil => simp [setKey, getKey, h2]
  | cons p rest ih =>
      obtain ⟨k1, w⟩ := p
      by_cases h1 : k1 = key
      · subst h1
        simp [setKey, getKey, h2]
      · simp [setKey, h1, getKey, ih]

theorem allStrings_map_str (ss : List String) :
    allStrings (ss.map Json.str) = some ss := by
  induction ss with
  | nil => rfl
  | cons s rest ih => simp [allStrings, validateStr, ih]

theorem validateTechStackDetail_encode (t : TechStackDetail) :
    validateTechStackDetail (encodeTechStackDetail t) = some t := rfl

theorem validateCompetitorDetail_encode (c : CompetitorDetail) :
    validateCompetitorDetail (encodeCompetitorDetail c) = some c := rfl

theorem allTechStackDetails_map (ts : List TechStackDetail) :
    allTechStackDetails (ts.map encodeTechStackDetail) = some ts := by
  induction ts with
  | nil => rfl
  | cons t rest ih => simp [allTechStackDetails, validateTechStackDetail_encode, ih]

theorem allCompetitorDetails_map (cs : List CompetitorDetail) :
    allCompetitorDetails (cs.map encodeCompetitorDetail) = some cs := by
  induction cs with
  | nil => rfl
  | cons c rest ih => simp [allCompetitorDetails, validateCompetitorDetail_encode, ih]

theorem allDicts_map (ds : List (List (String × Json))) :
    allDicts (ds.map Json.obj) = some ds := by
  induction ds with
  | nil => rfl
  | cons d rest ih => simp [allDicts, validateDict, ih]

theorem validate_of_conformant (kvs : List (String × Json)) (r : AnalysisResult)
    (h : ConformantResponse kvs r) : AnalysisResult.validate kvs = some r := by
  obtain ⟨h1, h2, h3, h4, h5, h6, h7, h8, h9, h10, h11, h12, h13, h14⟩ := h
  unfold AnalysisResult.validate
  rw [h1, h2, h3, h4, h5, h6, h7, h8, h9, h10, h11, h12, h13, h14]
  simp only [Option.some_bind, validateInt, validateStr, validateStrList,
             allStrings_map_str, allTechStackDetails_map, allDicts_map,
             allCompetitorDetails_map]

theorem allStrings_eq_none_of_mem (xs : List Json) (j : Json) (hj : j ∈ xs)
    (hv : validateStr j = none) : allStrings xs = none := by
  induction xs with
  | nil => cases hj
  | cons a rest ih =>
      rcases List.mem_cons.mp hj with rfl | hmem
      · simp [allStrings, hv]
      · cases hva : validateStr a <;> simp [allStrings, hva, ih hmem]

theorem coerceListField_of_str (key : String) (kvs : List (String × Json)) (s : String)
    (h : getKey kvs key = some (.str s)) : coerceListField key kvs = .ok kvs := by
  unfold coerceListField
  rw [h]

theorem coerceListField_of_none (key : String) (kvs : List (String × Json))
    (h : getKey kvs key = none) : coerceListField key kvs = .ok kvs := by
  unfold coerceListField
  rw [h]

theorem coerceListField_join (key : String) (kvs : List (String × Json)) (ss : List String)
    (h : getKey kvs key = some (.arr (ss.map Json.str))) :
    coerceListField key kvs = .ok (setKey kvs key (.str (String.intercalate " " ss))) := by
  unfold coerceListField
  rw [h]
  simp [joinWithSpace, allStrings_map_str]

theorem coerceListField_err (key : String) (kvs : List (String × Json)) (xs : List Json)
    (j : Json) (h : getKey kvs key = some (.arr xs)) (hj : j ∈ xs)
    (hv : validateStr j = none) : coerceListField key kvs = .error joinTypeOutcome := by
  unfold coerceListField
  rw [h]
  simp [joinWithSpace, allStrings_eq_none_of_mem xs j hj hv]

theorem coerceListField_error_eq (key : String) (kvs : List (String × Json)) (e : PyError)
    (h : coerceListField key kvs = .error e) : e = joinTypeOutcome := by
  unfold coerceListField at h
  split at h
  · split at h
    · exact Except.noConfusion h
    · exact (Except.error.inj h).symm
  · exact Except.noConfusion h

theorem coerceListField_ok_getKey_ne (key k : String) (kvs kvs1 : List (String × Json))
    (hk : k ≠ key) (h : coerceListField key kvs = .ok kvs1) :
    getKey kvs1 k = getKey kvs k := by
  unfold coerceListField at h
  split at h
  · split at h
    · cases h
      exact getKey_setKey_ne kvs key k _ hk
    · exact Except.noConfusion h
  · cases h
    rfl

theorem normalizeResponse_ok_getKey_ne (kvs kvs2 : List (String × Json))
    (h : normalizeResponse kvs = .ok kvs2) (k : String)
    (h1 : k ≠ "ecosystemRisks") (h2 : k ≠ "adoptionDrivers") :
    getKey kvs2 k = getKey kvs k := by
  unfold normalizeResponse at h
  cases hc : coerceListField "ecosystemRisks" kvs with
  | error e => rw [hc] at h; exact Except.noConfusion h
  | ok kvs1 =>
      rw [hc] at h
      rw [coerceListField_ok_getKey_ne "adoptionDrivers" k kvs1 kvs2 h2 h,
          coerceListField_ok_getKey_ne "ecosystemRisks" k kvs kvs1 h1 hc]

theorem analyze_project_shape (key : Option String) (genai : String → AnalyzeCall)
    (idea : String) :
    (∃ r logs, analyze_project key genai idea = (.model r, logs)) ∨
    (∃ logs, analyze_project key genai idea = (.dict default_data, logs)) ∨
    (∃ d logs, analyze_project key genai idea = (.httpError 500 d, logs)) := by
  unfold analyze_project
  split
  · exact Or.inr (Or.inr ⟨_, _, rfl⟩)
  · split
    · split
      · exact Or.inr (Or.inl ⟨_, rfl⟩)
      · exact Or.inr (Or.inr ⟨_, _, rfl⟩)
    · exact Or.inr (Or.inr ⟨_, _, rfl⟩)
    · split
      · exact Or.inr (Or.inl ⟨_, rfl⟩)
      · split
        · exact Or.inr (Or.inr ⟨_, _, rfl⟩)
        · split
          · exact Or.inl ⟨_, _, rfl⟩
          · exact Or.inr (Or.inl ⟨_, rfl⟩)
      · exact Or.inr (Or.inr ⟨_, _, rfl⟩)

/-! Claim theorems. -/

/-- Claim C1: for every credential state, every behavior of the external
completion service and every idea string, the value POST /analyze hands the
caller is either a complete AnalysisResult body (success or fallback,
response-model validation succeeding, so all fourteen fields are present
with their declared types) or an explicit HTTPException; the
response-validation-failure outcome, the only way a partial object could
cross the boundary, never occurs. -/
theorem C1_analyze_never_partial (key : Option String) (genai : String → AnalyzeCall)
    (idea : String) :
    (∃ r, (analyze_response key genai idea).1 = AnalyzeResult.body r) ∨
    (∃ d, (analyze_response key genai idea).1 = AnalyzeResult.httpError 500 d) := by
  rcases analyze_project_shape key genai idea with ⟨r, logs, h⟩ | ⟨logs, h⟩ | ⟨d, logs, h⟩
  · exact Or.inl ⟨r, by simp [analyze_response, h, fastapiRespond]⟩
  · exact Or.inl ⟨defaultAnalysisResult,
      by simp [analyze_response, h, fastapiRespond, default_data_validates]⟩
  · exact Or.inr ⟨d, by simp [analyze_response, h, fastapiRespond]⟩

/-- Claim C2 (code bug witness): when the credential is absent or empty,
analyze_project does not return the fallback payload.  The line
raise APIError("...") calls a constructor that needs two positional
arguments, so a TypeError escapes to the blanket except clause and the
caller receives HTTP 500 — for every oracle behavior and every idea — and
never the fallback body.  The claim (and the specification) describe the
intended behavior; the code diverges. -/
theorem C2_missing_key_http500 (genai : String → AnalyzeCall) (idea : String) :
    analyze_response none genai idea =
      (.httpError 500 (unexpectedDetail apiKeyRaiseOutcome),
       [.internalServerError apiKeyRaiseOutcome]) ∧
    analyze_response (some "") genai idea =
      (.httpError 500 (unexpectedDetail apiKeyRaiseOutcome),
       [.internalServerError apiKeyRaiseOutcome]) ∧
    (analyze_response none genai idea).1 ≠ AnalyzeResult.body defaultAnalysisResult := by
  refine ⟨rfl, rfl, ?_⟩
  intro h
  simp [analyze_response, analyze_project, keyPresent, fastapiRespond] at h

/-- Claim C10: noninterference on the absent-credential path.  When the
credential is missing or empty, the /analyze response (body and logs) is
one fixed value: it does not depend on the idea string, nor on anything the
external service would do, so no information from the input flows to the
output on that path (the check precedes any network call). -/
theorem C10_missing_key_noninterference (key : Option String)
    (genai genai2 : String → AnalyzeCall) (idea idea2 : String)
    (h : keyPresent key = false) :
    analyze_response key genai idea = analyze_response key genai2 idea2 := by
  simp [analyze_response, analyze_project, h]

/-- Claim C10 witness: two runs with different ideas and different service
behaviors yield the identical response when the credential is absent. -/
theorem C10_witness :
    analyze_response none (fun _ => AnalyzeCall.raised (.otherError "boom")) "idea one" =
    analyze_response none (fun _ => AnalyzeCall.returned none) "idea two" :=
  C10_missing_key_noninterference none _ _ "idea one" "idea two" rfl

/-- Claim C3: round-trip on the happy path.  When the service returns
syntactically valid JSON that is fully schema-conformant (every field
present with exactly the schema type, the two coercion fields already
scalar strings), /analyze returns exactly that object deserialized into
the result model, field for field, with no diagnostic logged. -/
theorem C3_happy_path_identity (key : Option String) (genai : String → AnalyzeCall)
    (idea : String) (kvs : List (String × Json)) (r : AnalysisResult)
    (hkey : keyPresent key = true)
    (hcall : genai (create_analysis_prompt idea) =
      .returned (some (.jsonText (.obj kvs))))
    (hconf : ConformantResponse kvs r) :
    analyze_response key genai idea = (.body r, []) := by
  obtain ⟨h1, h2, h3, h4, h5, h6, h7, h8, h9, h10, h11, h12, h13, h14⟩ := hconf
  have hval := validate_of_conformant kvs r
    ⟨h1, h2, h3, h4, h5, h6, h7, h8, h9, h10, h11, h12, h13, h14⟩
  have he := coerceListField_of_str "ecosystemRisks" kvs r.ecosystemRisks h7
  have ha := coerceListField_of_str "adoptionDrivers" kvs r.adoptionDrivers h8
  have hnorm : normalizeResponse kvs = .ok kvs := by
    unfold normalizeResponse
    rw [he]
    exact ha
  simp [analyze_response, analyze_project, hkey, hcall, json_loads, hnorm, hval,
        fastapiRespond]

/-- Claim C3 witness: a concrete conformant reply round-trips unchanged. -/
theorem C3_witness :
    analyze_response (some "k")
      (fun _ => AnalyzeCall.returned (some (.jsonText (.obj sampleKvs)))) "an idea"
      = (.body sampleResult, []) :=
  C3_happy_path_identity (some "k") _ "an idea" sampleKvs sampleResult rfl rfl
    ⟨rfl, rfl, rfl, rfl, rfl, rfl, rfl, rfl, rfl, rfl, rfl, rfl, rfl, rfl⟩

/-- Claim C4: the Normalizer.  If ecosystemRisks or adoptionDrivers holds a
sequence of strings, the coercion step replaces it by the elements joined
with a single space and leaves every other key untouched; and the
normalization as a whole never changes any key other than these two. -/
theorem C4_normalizer_coercion :
    (∀ (kvs : List (String × Json)) (key : String) (ss : List String),
        (key = "ecosystemRisks" ∨ key = "adoptionDrivers") →
        getKey kvs key = some (.arr (ss.map Json.str)) →
        ∃ kvs1, coerceListField key kvs = .ok kvs1 ∧
          getKey kvs1 key = some (.str (String.intercalate " " ss)) ∧
          ∀ k, k ≠ key → getKey kvs1 k = getKey kvs k) ∧
    (∀ kvs kvs2, normalizeResponse kvs = .ok kvs2 →
        ∀ k, k ≠ "ecosystemRisks" → k ≠ "adoptionDrivers" →
        getKey kvs2 k = getKey kvs k) := by
  constructor
  · intro kvs key ss _ hg
    exact ⟨setKey kvs key (.str (String.intercalate " " ss)),
           coerceListField_join key kvs ss hg,
           getKey_setKey_self kvs key _,
           fun k hk => getKey_setKey_ne kvs key k _ hk⟩
  · intro kvs kvs2 h k h1 h2
    exact normalizeResponse_ok_getKey_ne kvs kvs2 h k h1 h2

/-- Claim C4 witness: the specification example, a two-element list of
strings becoming the single space-joined string. -/
theorem C4_witness :
    ∃ kvs1, coerceListField "ecosystemRisks"
        [("ecosystemRisks", Json.arr [Json.str "risk A", Json.str "risk B"]),
         ("techAppeal", Json.str "High.")] = .ok kvs1 ∧
      getKey kvs1 "ecosystemRisks" = some (Json.str "risk A risk B") ∧
      getKey kvs1 "techAppeal" = some (Json.str "High.") := by
  obtain ⟨kvs1, hok, hval, hother⟩ :=
    C4_normalizer_coercion.1
      [("ecosystemRisks", Json.arr [Json.str "risk A", Json.str "risk B"]),
       ("techAppeal", Json.str "High.")]
      "ecosystemRisks" ["risk A", "risk B"] (Or.inl rfl) rfl
  refine ⟨kvs1, hok, ?_, ?_⟩
  · rw [hval]
    rfl
  · rw [hother "techAppeal" (by decide)]
    rfl

/-- Claim C5 counterexample: the claim says a string-typed noveltyScore
always raises SchemaViolation and yields the fallback, with no coercion
attempt.  In fact pydantic v2 default (lax) mode coerces number-like
strings, so a reply whose noveltyScore is the string "60" is accepted:
/analyze returns a success body with noveltyScore 60 — not the fallback
payload — and logs nothing. -/
theorem C5_counterexample :
    analyze_response (some "k")
      (fun _ => AnalyzeCall.returned (some (.jsonText (.obj stringScoreKvs)))) "idea"
      = (.body stringScoreResult, []) ∧
    stringScoreResult.noveltyScore = 60 ∧
    stringScoreResult ≠ defaultAnalysisResult := by
  refine ⟨rfl, rfl, fun h => ?_⟩
  exact absurd (congrArg AnalysisResult.uniquenessSummary h) (by decide)

/-- Claim C5 (amended): if the completion service returns a JSON object
whose noveltyScore is a string that does not parse as an integer, pydantic
validation fails and the caller receives the fallback payload; a
number-like string such as "60", however, is coerced to the integer by the
lax validator and accepted. -/
theorem C5_amended_nonnumeric_string_fallback (key : Option String)
    (genai : String → AnalyzeCall) (idea : String)
    (kvs kvs1 : List (String × Json)) (s : String)
    (hkey : keyPresent key = true)
    (hcall : genai (create_analysis_prompt idea) =
      .returned (some (.jsonText (.obj kvs))))
    (hnorm : normalizeResponse kvs = .ok kvs1)
    (hscore : getKey kvs1 "noveltyScore" = some (.str s))
    (hs : pyIntOfString s = none) :
    analyze_response key genai idea =
      (.body defaultAnalysisResult,
       [.analysisError (.validationError validationFailureMsg)]) := by
  have hval : AnalysisResult.validate kvs1 = none := by
    unfold AnalysisResult.validate
    rw [hscore]
    simp [validateInt, hs]
  simp [analyze_response, analyze_project, hkey, hcall, json_loads, hnorm, hval,
        fastapiRespond, default_data_validates]

/-- Claim C5 amended-theorem witness: a non-numeric string score yields the
fallback payload. -/
theorem C5_witness :
    analyze_response (some "k")
      (fun _ => AnalyzeCall.returned (some (.jsonText
        (.obj [("noveltyScore", Json.str "sixty")])))) "idea"
      = (.body defaultAnalysisResult,
         [.analysisError (.validationError validationFailureMsg)]) :=
  C5_amended_nonnumeric_string_fallback (some "k") _ "idea"
    [("noveltyScore", Json.str "sixty")] [("noveltyScore", Json.str "sixty")]
    "sixty" rfl rfl rfl rfl rfl

/-- Claim C6: malformed JSON and schema violation both degrade to the
fallback payload, and the recorded diagnostics are distinct: both failures
are logged through the same format string but carry exceptions of two
different classes (json.JSONDecodeError and pydantic ValidationError,
independently catchable in Python), so the two log events are never
equal. -/
theorem C6_distinct_failure_diagnostics (key : Option String)
    (genai : String → AnalyzeCall) (idea : String) (hkey : keyPresent key = true) :
    (∀ m, genai (create_analysis_prompt idea) = .returned (some (.invalidJson m)) →
        analyze_response key genai idea =
          (.body defaultAnalysisResult, [.analysisError (.jsonDecodeError m)])) ∧
    (∀ kvs kvs1, genai (create_analysis_prompt idea) =
          .returned (some (.jsonText (.obj kvs))) →
        normalizeResponse kvs = .ok kvs1 → AnalysisResult.validate kvs1 = none →
        analyze_response key genai idea =
          (.body defaultAnalysisResult,
           [.analysisError (.validationError validationFailureMsg)])) ∧
    (∀ m m2, LogEvent.analysisError (.jsonDecodeError m) ≠
        LogEvent.analysisError (.validationError m2)) := by
  refine ⟨?_, ?_, ?_⟩
  · intro m hcall
    simp [analyze_response, analyze_project, hkey, hcall, json_loads,
          fastapiRespond, default_data_validates]
  · intro kvs kvs1 hcall hnorm hval
    simp [analyze_response, analyze_project, hkey, hcall, json_loads, hnorm, hval,
          fastapiRespond, default_data_validates]
  · intro m m2
    simp

/-- Claim C6 witness: a malformed-JSON run and a schema-violating run, both
falling back, with distinct log events. -/
theorem C6_witness :
    analyze_response (some "k")
      (fun _ => AnalyzeCall.returned (some (.invalidJson "Expecting value"))) "idea"
      = (.body defaultAnalysisResult,
         [.analysisError (.jsonDecodeError "Expecting value")]) ∧
    analyze_response (some "k")
      (fun _ => AnalyzeCall.returned (some (.jsonText (.obj [])))) "idea"
      = (.body defaultAnalysisResult,
         [.analysisError (.validationError validationFailureMsg)]) ∧
    LogEvent.analysisError (.jsonDecodeError "Expecting value") ≠
      LogEvent.analysisError (.validationError validationFailureMsg) :=
  ⟨(C6_distinct_failure_diagnostics (some "k") _ "idea" rfl).1 "Expecting value" rfl,
   (C6_distinct_failure_diagnostics (some "k") _ "idea" rfl).2.1 [] [] rfl rfl rfl,
   (C6_distinct_failure_diagnostics (some "k")
      (fun _ => AnalyzeCall.returned none) "idea" rfl).2.2 "Expecting value"
      validationFailureMsg⟩

/-- Claim C7: /chat never returns an HTTP error for any credential state,
service behavior or message, and whenever any failure was handled (a
diagnostic was logged) the reply is exactly the fixed apology string. -/
theorem C7_chat_never_errors (key : Option String) (genai : String → ChatCall)
    (message : String) :
    (∀ c d, (chat_endpoint key genai message).1 ≠ ChatResult.httpError c d) ∧
    ((chat_endpoint key genai message).2 ≠ [] →
      (chat_endpoint key genai message).1 = ChatResult.reply ⟨chatFallbackReply⟩) := by
  by_cases hk : keyPresent key = false
  · simp [chat_endpoint, hk]
  · cases hcall : genai (create_chat_prompt message) with
    | raised e => simp [chat_endpoint, hk, hcall]
    | returned t =>
        cases t with
        | none => simp [chat_endpoint, hk, hcall]
        | some s => simp [chat_endpoint, hk, hcall]

/-- Claim C7 witness: a failing chat call yields the apology reply. -/
theorem C7_witness :
    (chat_endpoint none (fun _ => ChatCall.raised (.otherError "boom")) "hi").1 =
      ChatResult.reply ⟨chatFallbackReply⟩ :=
  (C7_chat_never_errors none _ "hi").2 (by simp [chat_endpoint, keyPresent])

/-- Claim C8: failures outside the four recognized kinds surface as HTTP
500 with a human-readable detail, never as the fallback payload: an
exception the first except clause does not catch, a None response text
(TypeError in json.loads), and a TypeError in the space-join all produce
the explicit 500; and a 500 response is never a fallback body. -/
theorem C8_unrecognized_failure_500 (key : Option String)
    (genai : String → AnalyzeCall) (idea : String) (hkey : keyPresent key = true) :
    (∀ e, genai (create_analysis_prompt idea) = .raised e →
        caughtByAnalyzeExcept e = false →
        analyze_response key genai idea =
          (.httpError 500 (unexpectedDetail e), [.internalServerError e])) ∧
    (genai (create_analysis_prompt idea) = .returned none →
        analyze_response key genai idea =
          (.httpError 500 (unexpectedDetail jsonLoadsNoneOutcome),
           [.internalServerError jsonLoadsNoneOutcome])) ∧
    (∀ kvs e, genai (create_analysis_prompt idea) =
          .returned (some (.jsonText (.obj kvs))) →
        normalizeResponse kvs = .error e →
        analyze_response key genai idea =
          (.httpError 500 (unexpectedDetail e), [.internalServerError e])) ∧
    (∀ v, genai (create_analysis_prompt idea) = .returned (some (.jsonText v)) →
        (∀ kvs, v ≠ Json.obj kvs) →
        analyze_response key genai idea =
          (.httpError 500 (unexpectedDetail getAttrOutcome),
           [.internalServerError getAttrOutcome])) ∧
    (∀ c d r, AnalyzeResult.httpError c d ≠ AnalyzeResult.body r) := by
  refine ⟨?_, ?_, ?_, ?_, ?_⟩
  · intro e hcall hc
    simp [analyze_response, analyze_project, hkey, hcall, hc, fastapiRespond]
  · intro hcall
    simp [analyze_response, analyze_project, hkey, hcall, fastapiRespond]
  · intro kvs e hcall hnorm
    simp [analyze_response, analyze_project, hkey, hcall, json_loads, hnorm,
          fastapiRespond]
  · intro v hcall hne
    cases v with
    | obj kvs => exact absurd rfl (hne kvs)
    | null => simp [analyze_response, analyze_project, hkey, hcall, json_loads, fastapiRespond]
    | bool b => simp [analyze_response, analyze_project, hkey, hcall, json_loads, fastapiRespond]
    | int n => simp [analyze_response, analyze_project, hkey, hcall, json_loads, fastapiRespond]
    | str s => simp [analyze_response, analyze_project, hkey, hcall, json_loads, fastapiRespond]
    | arr xs => simp [analyze_response, analyze_project, hkey, hcall, json_loads, fastapiRespond]
  · intro c d r
    simp

/-- Claim C8 witness: an uncaught exception from the external call yields
the explicit 500 with its detail string. -/
theorem C8_witness :
    analyze_response (some "k")
      (fun _ => AnalyzeCall.raised (.otherError "socket closed")) "idea"
      = (.httpError 500 (unexpectedDetail (.otherError "socket closed")),
         [.internalServerError (.otherError "socket closed")]) :=
  (C8_unrecognized_failure_500 (some "k") _ "idea" rfl).1
    (.otherError "socket closed") rfl rfl

/-- Claim C9: when the parsed reply holds ecosystemRisks or adoptionDrivers
as a list containing a non-string element, the space-join raises TypeError,
which the first except clause does not catch, so /analyze surfaces HTTP 500
rather than the fallback payload. -/
theorem C9_nonstring_element_500 (key : Option String)
    (genai : String → AnalyzeCall) (idea : String) (kvs : List (String × Json))
    (hkey : keyPresent key = true)
    (hcall : genai (create_analysis_prompt idea) =
      .returned (some (.jsonText (.obj kvs))))
    (hbad : (∃ xs j, getKey kvs "ecosystemRisks" = some (.arr xs) ∧ j ∈ xs ∧
              validateStr j = none) ∨
            (∃ xs j, getKey kvs "adoptionDrivers" = some (.arr xs) ∧ j ∈ xs ∧
              validateStr j = none)) :
    analyze_response key genai idea =
      (.httpError 500 (unexpectedDetail joinTypeOutcome),
       [.internalServerError joinTypeOutcome]) ∧
    ∀ r, (analyze_response key genai idea).1 ≠ AnalyzeResult.body r := by
  have hnorm : normalizeResponse kvs = .error joinTypeOutcome := by
    rcases hbad with ⟨xs, j, hg, hj, hv⟩ | ⟨xs, j, hg, hj, hv⟩
    · unfold normalizeResponse
      rw [coerceListField_err "ecosystemRisks" kvs xs j hg hj hv]
    · unfold normalizeResponse
      cases hc : coerceListField "ecosystemRisks" kvs with
      | error e => rw [coerceListField_error_eq "ecosystemRisks" kvs e hc]
      | ok kvs1 =>
          have hg1 : getKey kvs1 "adoptionDrivers" = some (.arr xs) := by
            rw [coerceListField_ok_getKey_ne "ecosystemRisks" "adoptionDrivers"
                  kvs kvs1 (by decide) hc]
            exact hg
          exact coerceListField_err "adoptionDrivers" kvs1 xs j hg1 hj hv
  constructor
  · simp [analyze_response, analyze_project, hkey, hcall, json_loads, hnorm,
          fastapiRespond]
  · intro r
    simp [analyze_response, analyze_project, hkey, hcall, json_loads, hnorm,
          fastapiRespond]

/-- Claim C9 witness: ecosystemRisks arriving as a list holding an integer
drives /analyze to the explicit 500. -/
theorem C9_witness :
    analyze_response (some "k")
      (fun _ => AnalyzeCall.returned (some (.jsonText
        (.obj [("ecosystemRisks", Json.arr [Json.int 1])])))) "idea"
      = (.httpError 500 (unexpectedDetail joinTypeOutcome),
         [.internalServerError joinTypeOutcome]) :=
  (C9_nonstring_element_500 (some "k") _ "idea"
    [("ecosystemRisks", Json.arr [Json.int 1])] rfl rfl
    (Or.inl ⟨[Json.int 1], Json.int 1, rfl, by simp, rfl⟩)).1

end ProphAI
